import Mathlib

/-!
Shallow embedding of the portal-login script (`main.py`).

The script is sequential and effectful; we model it as functions that
return the list of observable events (log lines, terminal prints, browser
actions) produced by a run, together with an outcome.  External
nondeterminism (which browser operations fail, what the element queries
return) is captured by explicit environment records passed to the model.
-/

namespace Scraper

/-- Log levels of the `logging` module as used by the script. -/
inductive LogLevel
  | info
  | warning
  | error
deriving DecidableEq

/-- The element-location queries the script sends (their literal bodies are
irrelevant to the model; each constructor stands for one fixed query string
constant of `login_to_portal`). -/
inductive QueryId
  | loginFormQuery
  | popupQuery
  | exhibitorHubQuery
deriving DecidableEq

/-- Targets of fill/click/wait browser operations.  The first three are the
handles of the AgentQL response to `LOGIN_FORM_QUERY`; the `*Selector` ones
are the literal CSS selectors used by the fallback path and the two
`wait_for_selector` calls; the popup/hub ones are the handles of the other
two queries. -/
inductive Target
  | usernameField
  | passwordField
  | loginButton
  | usernameSelector
  | passwordSelector
  | submitSelector
  | popupCloseBtn
  | hubSubmitBtn
  | hubByText (t : String)
deriving DecidableEq

/-- One browser-automation action performed (attempted) on the page. -/
inductive BAction
  | playwrightStart
  | goto (url : String)
  | waitLoad
  | waitSelector (t : Target)
  | queryElements (q : QueryId)
  | fill (t : Target) (value : String)
  | click (t : Target)
  | getByText (s : String)
deriving DecidableEq

/-- An observable event of a run: a log-file line, a terminal print (the
prompt text of an `input` call is printed as well), or a browser action. -/
inductive Event
  | log (lvl : LogLevel) (msg : String)
  | print (msg : String)
  | act (a : BAction)
deriving DecidableEq

/-- A Python exception value, by class name and message. -/
structure Exc where
  name : String
  msg : String
deriving DecidableEq

/-! ## String primitives

Python's `str.strip` and `str.lower` are modelled by structurally
recursive functions over the character list, so that every run of the
model evaluates inside the kernel. -/

/-- Drops leading and trailing whitespace from a character list. -/
def stripChars (l : List Char) : List Char :=
  ((l.dropWhile Char.isWhitespace).reverse.dropWhile Char.isWhitespace).reverse

/-- Python `str.strip()`. -/
def pyStrip (s : String) : String := ⟨stripChars s.data⟩

/-- Python `str.lower()` (ASCII, which is all the script compares). -/
def pyLower (s : String) : String := ⟨s.data.map Char.toLower⟩

/-- Whether the first list is an initial segment of the second. -/
def leadsWith : List Char → List Char → Bool
  | [], _ => true
  | _ :: _, [] => false
  | a :: as, b :: bs => a == b && leadsWith as bs

/-- Whether the first list occurs inside the second. -/
def containsSub (needle : List Char) : List Char → Bool
  | [] => leadsWith needle []
  | b :: bs => leadsWith needle (b :: bs) || containsSub needle bs

/-- Whether `needle` occurs as a substring of `hay`. -/
def occursIn (needle hay : String) : Bool :=
  containsSub needle.data hay.data

/-! ## Credential source (`read_default_credentials`, `get_user_credentials`) -/

/-- The credential file, as the key-value pairs `load_dotenv` would expose. -/
abbrev EnvFile := List (String × String)

/-- `os.getenv` over the loaded file: `none` when the key is absent. -/
def getenv (f : EnvFile) (k : String) : Option String :=
  (f.find? (fun kv => kv.1 == k)).map (fun kv => kv.2)

/-- The template written when the file is missing:
`TARGET_URL=`, `TARGET_USERNAME=`, `TARGET_PASSWORD=` (all empty). -/
def templateFile : EnvFile :=
  [("TARGET_URL", ""), ("TARGET_USERNAME", ""), ("TARGET_PASSWORD", "")]

/-- A convenient concrete file with the three fixed keys. -/
def mkFile (u n p : String) : EnvFile :=
  [("TARGET_URL", u), ("TARGET_USERNAME", n), ("TARGET_PASSWORD", p)]

/-- Python truthiness of an optional string (`None` and `""` are falsy). -/
def truthy (v : Option String) : Bool :=
  !(v.getD "").isEmpty

@[simp]
theorem truthy_some_empty : truthy (some "") = false := rfl

/-- Result of `read_default_credentials`: its log events, the file system
afterwards, and the three values (each `none` when `os.getenv` misses). -/
structure RDCRes where
  trace : List Event
  fsAfter : Option EnvFile
  url : Option String
  username : Option String
  password : Option String
deriving DecidableEq

/-- `read_default_credentials` : if the file is missing, write the template
and return three empty strings; otherwise return the three looked-up keys. -/
def read_default_credentials (fs : Option EnvFile) : RDCRes :=
  match fs with
  | none =>
      ⟨[Event.log .warning ".env file not found. Creating template...",
        Event.log .info "Created .env template. Please fill in your credentials."],
       some templateFile, some "", some "", some ""⟩
  | some f =>
      ⟨[], some f, getenv f "TARGET_URL", getenv f "TARGET_USERNAME",
       getenv f "TARGET_PASSWORD"⟩

/-- The fixed default URL offered at the URL prompt. -/
def defaultUrl : String := "https://auth.reedexpo.com/secure/Account/Login"

/-- The prompt string of the URL `input` call. -/
def urlPrompt : String :=
  "Enter URL (press Enter for default: " ++ defaultUrl ++ "): "

/-- The prompt string of the username `input` call. -/
def loginIdPrompt : String := "Enter Login ID: "

/-- The prompt string of the password `input` call. -/
def passwordPrompt : String := "Enter Password: "

/-- The prompt string of the reuse-confirmation `input` call. -/
def reusePrompt : String := "\nUse these credentials? (Y/n): "

/-- `use_env != 'y' and use_env != ''` applied to the raw confirmation
input, after the script's `.strip().lower()`. -/
def declines (d : String) : Bool :=
  !(pyLower (pyStrip d) == "y") && !(pyLower (pyStrip d) == "")

/-- Result of `get_user_credentials`: events, the resolved triple (always
plain strings by then), the file system afterwards, and the input lines not
consumed. -/
structure GUCRes where
  trace : List Event
  url : String
  username : String
  password : String
  fsAfter : Option EnvFile
  rest : List String
deriving DecidableEq

/-- `get_user_credentials`, with the stdin lines given as a list (an
exhausted list reads as the empty string). -/
def get_user_credentials (fs : Option EnvFile) (inputs : List String) : GUCRes :=
  let r := read_default_credentials fs
  if truthy r.url && truthy r.username && truthy r.password then
    -- all three present: display them (password masked) and confirm reuse
    let u := r.url.getD ""
    let n := r.username.getD ""
    let p := r.password.getD ""
    let tp := r.trace ++
      [Event.print "\nCredentials loaded from .env file.",
       Event.print ("URL: " ++ u),
       Event.print ("Username: " ++ n),
       Event.print "Password: ********",
       Event.print reusePrompt]
    let d := inputs.headD ""
    let rest1 := inputs.tail
    if declines d then
      let s := pyStrip (rest1.headD "")
      let urlB := if s.isEmpty then defaultUrl else s
      let n2 := pyStrip (rest1.tail.headD "")
      let p2 := pyStrip (rest1.tail.tail.headD "")
      ⟨tp ++ [Event.print urlPrompt, Event.print loginIdPrompt, Event.print passwordPrompt],
       urlB, n2, p2, r.fsAfter, rest1.tail.tail.tail⟩
    else
      ⟨tp, u, n, p, r.fsAfter, rest1⟩
  else
    -- at least one missing: prompt for each missing field only
    let tp := r.trace ++
      [Event.print "\nCredentials not found in .env file.",
       Event.print "Please enter your credentials or update the .env file with:",
       Event.print "TARGET_URL=your_url",
       Event.print "TARGET_USERNAME=your_username",
       Event.print "TARGET_PASSWORD=your_password\n"]
    let stepU :=
      if truthy r.url then (tp, r.url.getD "", inputs)
      else (tp ++ [Event.print urlPrompt], pyStrip (inputs.headD ""), inputs.tail)
    let urlB := if stepU.2.1.isEmpty then defaultUrl else stepU.2.1
    let stepN :=
      if truthy r.username then (stepU.1, r.username.getD "", stepU.2.2)
      else (stepU.1 ++ [Event.print loginIdPrompt],
            pyStrip (stepU.2.2.headD ""), stepU.2.2.tail)
    let stepP :=
      if truthy r.password then (stepN.1, r.password.getD "", stepN.2.2)
      else (stepN.1 ++ [Event.print passwordPrompt],
            pyStrip (stepN.2.2.headD ""), stepN.2.2.tail)
    ⟨stepP.1, urlB, stepN.2.1, stepP.2.1, r.fsAfter, stepP.2.2⟩

/-! ## Login sequencer (`login_to_portal`) -/

/-- Which operations of the submit step raise, playing the role of the real
page/AgentQL behaviour: the `query_elements(LOGIN_FORM_QUERY)` call, each
handle fill/click of the primary path, and each literal-locator fill/click
of the fallback path. -/
structure SubmitEnv where
  queryFails : Bool
  pFillUserFails : Bool
  pFillPassFails : Bool
  pClickFails : Bool
  fbFillUserFails : Bool
  fbFillPassFails : Bool
  fbClickFails : Bool
deriving DecidableEq

/-- The exception raised by a failing fill/click/query/navigation; the model
keeps the message abstract but constant (independent of the fill values). -/
def opExc : Exc := ⟨"Error", "element operation failed"⟩

/-- The `TimeoutError` of a `wait_for_selector` that exceeds 60000 ms. -/
def timeoutExc : Exc := ⟨"TimeoutError", "Timeout 60000ms exceeded"⟩

/-- The primary (AgentQL) branch of the submit step: query the login form,
fill username, fill password, click submit; the trace records attempted
actions, and the returned exception (if any) escapes to the `except`. -/
def primarySeq (u p : String) (e : SubmitEnv) : List Event × Option Exc :=
  let t0 := [Event.act (.queryElements .loginFormQuery)]
  if e.queryFails then (t0, some opExc) else
  let t1 := t0 ++ [Event.log .info "Login form elements found",
                   Event.log .info ("Filling username: " ++ u),
                   Event.act (.fill .usernameField u)]
  if e.pFillUserFails then (t1, some opExc) else
  let t2 := t1 ++ [Event.log .info "Filling password",
                   Event.act (.fill .passwordField p)]
  if e.pFillPassFails then (t2, some opExc) else
  let t3 := t2 ++ [Event.log .info "Clicking submit button",
                   Event.act (.click .loginButton)]
  if e.pClickFails then (t3, some opExc) else (t3, none)

/-- The fallback branch of the submit step: the same three actions through
the three fixed literal selectors; a failure here escapes the whole step. -/
def fallbackSeq (u p : String) (e : SubmitEnv) : List Event × Option Exc :=
  let t0 := [Event.log .info "Filling username field",
             Event.act (.fill .usernameSelector u)]
  if e.fbFillUserFails then (t0, some opExc) else
  let t1 := t0 ++ [Event.log .info "Filling password field",
                   Event.act (.fill .passwordSelector p)]
  if e.fbFillPassFails then (t1, some opExc) else
  let t2 := t1 ++ [Event.log .info "Clicking submit button",
                   Event.act (.click .submitSelector)]
  if e.fbClickFails then (t2, some opExc) else (t2, none)

/-- The whole submit step (lines 147-171): try the primary branch; on any
exception, log a warning and run the fallback branch. -/
def submitStep (u p : String) (e : SubmitEnv) : List Event × Option Exc :=
  match primarySeq u p e with
  | (t, none) => (t, none)
  | (t, some ex) =>
      let fb := fallbackSeq u p e
      (t ++ [Event.log .warning ("AgentQL query failed for login form: " ++ ex.msg),
             Event.log .info "Attempting fallback with direct selectors"] ++ fb.1,
       fb.2)

/-- `primarySeq` raises somewhere (so the fallback is entered). -/
def primaryFails (e : SubmitEnv) : Bool :=
  e.queryFails || e.pFillUserFails || e.pFillPassFails || e.pClickFails

/-- `fallbackSeq` raises somewhere (so the step raises when it is reached). -/
def fallbackFails (e : SubmitEnv) : Bool :=
  e.fbFillUserFails || e.fbFillPassFails || e.fbClickFails

/-- Behaviour of the popup step's externals: whether
`query_elements(POPUP_QUERY)` raises, whether its result is truthy, whether
evaluating `popup_response.popup_form.close_btn` raises, whether that
handle is truthy, and whether the click on it raises. -/
structure PopupEnv where
  queryRaises : Bool
  responseTruthy : Bool
  accessRaises : Bool
  closeBtnTruthy : Bool
  clickRaises : Bool
deriving DecidableEq

/-- The warning logged by the popup step's `except` handler. -/
def popupWarn (m : String) : Event :=
  Event.log .warning ("No popup found or error handling popup: " ++ m)

/-- The popup step (lines 180-188).  Its `except Exception` swallows every
failure, so it returns only a trace and never an exception. -/
def popupStep (pe : PopupEnv) : List Event :=
  let t0 := [Event.log .info "Checking for popup",
             Event.act (.queryElements .popupQuery)]
  if pe.queryRaises then t0 ++ [popupWarn opExc.msg] else
  if !pe.responseTruthy then t0 else
  if pe.accessRaises then t0 ++ [popupWarn "attribute access failed"] else
  if !pe.closeBtnTruthy then t0 else
  let t1 := t0 ++ [Event.log .info "Popup detected, attempting to close",
                   Event.act (.click .popupCloseBtn)]
  if pe.clickRaises then t1 ++ [popupWarn opExc.msg]
  else t1 ++ [Event.log .info "Popup closed successfully"]

/-- Behaviour of the hub step's externals: whether
`query_elements(EXHIBITOR_HUB_QUERY)` raises, whether `hub_response` is
truthy, whether `hub_response.submit_btn` is truthy, whether the click on
it raises, the value of `hub_response.submit_btn_text`, and whether the
`get_by_text(...).click()` raises. -/
structure HubEnv where
  queryRaises : Bool
  responseTruthy : Bool
  submitBtnTruthy : Bool
  clickRaises : Bool
  submitBtnText : String
  textClickRaises : Bool
deriving DecidableEq

/-- The error logged by the hub step's `except` handler. -/
def hubErr (m : String) : Event :=
  Event.log .error ("Failed to find Exhibitor Hub button: " ++ m)

/-- The message of the `AttributeError` raised by evaluating
`hub_response.submit_btn_text` when `hub_response` is `None`. -/
def noneAttrMsg : String :=
  "NoneType object has no attribute submit_btn_text"

/-- The hub step (lines 191-203).  Its `except Exception` catches every
failure and logs an error, so it returns only a trace.  Note the `else`
branch reads `hub_response.submit_btn_text`, which raises when
`hub_response` is `None`. -/
def hubStep (he : HubEnv) : List Event :=
  let t0 := [Event.log .info "Looking for Exhibitor Hub login button",
             Event.act (.queryElements .exhibitorHubQuery)]
  if he.queryRaises then t0 ++ [hubErr opExc.msg] else
  if he.responseTruthy && he.submitBtnTruthy then
    let t1 := t0 ++ [Event.log .info "Exhibitor Hub button found, clicking...",
                     Event.act (.click .hubSubmitBtn)]
    if he.clickRaises then t1 ++ [hubErr opExc.msg]
    else t1 ++ [Event.log .info "Exhibitor Hub button clicked successfully"]
  else
    let t1 := t0 ++ [Event.log .info "Trying to find button by text..."]
    if !he.responseTruthy then t1 ++ [hubErr noneAttrMsg] else
    let t2 := t1 ++ [Event.act (.getByText he.submitBtnText),
                     Event.act (.click (.hubByText he.submitBtnText))]
    if he.textClickRaises then t2 ++ [hubErr opExc.msg]
    else t2 ++ [Event.log .info "Exhibitor Hub button clicked successfully using text selector"]

/-- Behaviour of all externals of `login_to_portal`.  `startFails` covers an
exception anywhere in lines 128-131 (Playwright start, browser launch,
context and page creation) — i.e. before the local `page` is assigned. -/
structure BrowserEnv where
  startFails : Bool
  gotoFails : Bool
  load1Fails : Bool
  userSelTimeout : Bool
  passSelTimeout : Bool
  submit : SubmitEnv
  load2Fails : Bool
  popup : PopupEnv
  hub : HubEnv
  finalGotoFails : Bool
  load3Fails : Bool
deriving DecidableEq

/-- The fixed secondary URL of the final navigation. -/
def buyersUrl : String := "https://portal.my_target_site.com/exhibitor/search-buyers"

/-- Lines 127-146 of the `try` body: Playwright start, navigation to the
login URL, the load wait and the two visibility waits (60-second timeout
each), up to the log lines announcing the form interaction. -/
def loginPre (u : String) (env : BrowserEnv) : List Event × Option Exc :=
  let t0 := [Event.log .info "Initializing Playwright", Event.act .playwrightStart]
  if env.startFails then (t0, some opExc) else
  let t1 := t0 ++ [Event.log .info ("Navigating directly to login page: " ++ u),
                   Event.act (.goto u)]
  if env.gotoFails then (t1, some opExc) else
  let t2 := t1 ++ [Event.log .info "Waiting for page load", Event.act .waitLoad]
  if env.load1Fails then (t2, some opExc) else
  let t3 := t2 ++ [Event.log .info "Waiting for login form elements",
                   Event.act (.waitSelector .usernameSelector)]
  if env.userSelTimeout then (t3, some timeoutExc) else
  let t4 := t3 ++ [Event.act (.waitSelector .passwordSelector)]
  if env.passSelTimeout then (t4, some timeoutExc) else
  (t4 ++ [Event.log .info "Login form elements visible",
          Event.log .info "Attempting to interact with login form"], none)

/-- Lines 174-214 of the `try` body: the post-submit load wait, the popup
step, the hub step, the final navigation and its load wait, up to the log
line preceding the idle loop. -/
def loginPost (env : BrowserEnv) : List Event × Option Exc :=
  let t6 := [Event.log .info "Waiting for login submission to complete",
             Event.act .waitLoad]
  if env.load2Fails then (t6, some opExc) else
  let t7 := t6 ++ [Event.log .info "Login process completed"] ++
            popupStep env.popup ++ hubStep env.hub
  let t8 := t7 ++ [Event.log .info "Navigating to search buyers page",
                   Event.act (.goto buyersUrl)]
  if env.finalGotoFails then (t8, some opExc) else
  let t9 := t8 ++ [Event.act .waitLoad]
  if env.load3Fails then (t9, some opExc) else
  (t9 ++ [Event.log .info "Successfully navigated to search buyers page",
          Event.log .info "Browser will remain open. Press Ctrl+C to exit."], none)

/-- The `try` body of `login_to_portal` (lines 127-214 up to the idle loop):
the events it emits and the exception escaping it, if any.  An exception in
an earlier part skips everything after it. -/
def loginBody (u _n p : String) (env : BrowserEnv) : List Event × Option Exc :=
  match loginPre u env with
  | (t, some ex) => (t, some ex)
  | (t, none) =>
    match submitStep u p env.submit with
    | (ts, some ex) => (t ++ ts, some ex)
    | (ts, none) =>
      let post := loginPost env
      (t ++ ts ++ post.1, post.2)

/-- The outcome of `login_to_portal`: either the process stays alive in an
infinite idle loop, or an exception escapes the function. -/
inductive LoginOutcome
  | idle
  | raises (e : Exc)
deriving DecidableEq

/-- The `UnboundLocalError` raised when the idle loop of the `except`
handler evaluates `page` although line 131 never executed. -/
def unboundExc : Exc :=
  ⟨"UnboundLocalError",
   "cannot access local variable page where it is not associated with a value"⟩

/-- `login_to_portal` (lines 85-226).  On an exception escaping the `try`
body, the handler logs it and enters its own idle loop — which evaluates
the local `page`: if the exception occurred before `page` was assigned
(`startFails`), that evaluation raises `UnboundLocalError`, the `finally`
block runs, and the exception escapes the function. -/
def login_to_portal (u n p : String) (env : BrowserEnv) : List Event × LoginOutcome :=
  match loginBody u n p env with
  | (t, none) => (t, .idle)
  | (t, some ex) =>
      let th := t ++
        [Event.log .error ("Error during login process: " ++ ex.msg),
         Event.log .error ("Error details: " ++ ex.name),
         Event.log .info "Browser will remain open despite error. Press Ctrl+C to exit."]
      if env.startFails then
        (th ++ [Event.log .info "Script execution completed"], .raises unboundExc)
      else (th, .idle)

/-- Whether the process exits (`exits`) or stays alive forever (`idles`). -/
inductive MainOutcome
  | exits
  | idles
deriving DecidableEq

/-- `main` (lines 228-252): banner, credential resolution, the non-empty
check, then `login_to_portal`; its `except` catches an exception escaping
`login_to_portal`, logs and prints it, and the function returns (the
process exits). -/
def main (fs : Option EnvFile) (inputs : List String) (env : BrowserEnv) :
    List Event × MainOutcome :=
  let t0 := [Event.print "\nMy Target Site Portal Login",
             Event.print "===========================",
             Event.log .info "Starting login process"]
  let g := get_user_credentials fs inputs
  let t1 := t0 ++ g.trace ++ [Event.log .info "Credentials obtained"]
  if !(!g.url.isEmpty && !g.username.isEmpty && !g.password.isEmpty) then
    (t1 ++ [Event.log .error "Missing required credentials",
            Event.print "Error: All credentials are required",
            Event.log .info "Main function execution completed"], .exits)
  else
    let t2 := t1 ++ [Event.print "\nAttempting login..."]
    match login_to_portal g.url g.username g.password env with
    | (tl, .idle) => (t2 ++ tl, .idles)
    | (tl, .raises ex) =>
        (t2 ++ tl ++
         [Event.log .error ("Main execution failed: " ++ ex.msg),
          Event.print ("\nError: " ++ ex.msg),
          Event.log .info "Main function execution completed"], .exits)

/-! ## Observation helpers -/

/-- Counts the events of a trace satisfying a predicate. -/
def countEv (t : List Event) (p : Event → Bool) : Nat :=
  (t.filter p).length

/-- The event fills the given target. -/
def isFillOf (tg : Target) : Event → Bool
  | .act (.fill t _) => t == tg
  | _ => false

/-- The event clicks the given target. -/
def isClickOf (tg : Target) : Event → Bool
  | .act (.click t) => t == tg
  | _ => false

/-- The event is any click. -/
def isClickEv : Event → Bool
  | .act (.click _) => true
  | _ => false

/-- The event is a `get_by_text` lookup. -/
def isGetByTextEv : Event → Bool
  | .act (.getByText _) => true
  | _ => false

/-- The event is a browser action (as opposed to a log line or a print). -/
def isAct : Event → Bool
  | .act _ => true
  | _ => false

/-- The event is an error-level log line. -/
def isErrLog : Event → Bool
  | .log .error _ => true
  | _ => false

/-- The event is a warning-level log line. -/
def isWarnLog : Event → Bool
  | .log .warning _ => true
  | _ => false

/-- The event is the printed prompt of one of the four `input` calls. -/
def isPromptPrint : Event → Bool
  | .print m => m == urlPrompt || m == loginIdPrompt || m == passwordPrompt || m == reusePrompt
  | _ => false

/-- The prompt prints of a trace, in order. -/
def promptsOf (t : List Event) : List Event :=
  t.filter isPromptPrint

/-- The terminal output of a trace (messages of the print events). -/
def printedStrings (t : List Event) : List String :=
  t.filterMap (fun ev => match ev with | .print m => some m | _ => none)

@[simp]
theorem countEv_nil (p : Event → Bool) : countEv [] p = 0 := rfl

@[simp]
theorem countEv_cons (ev : Event) (t : List Event) (p : Event → Bool) :
    countEv (ev :: t) p = (if p ev then 1 else 0) + countEv t p := by
  simp only [countEv, List.filter_cons]
  split <;> simp [List.length_cons, Nat.add_comm]

@[simp]
theorem countEv_append (t₁ t₂ : List Event) (p : Event → Bool) :
    countEv (t₁ ++ t₂) p = countEv t₁ p + countEv t₂ p := by
  simp [countEv, List.filter_append]

@[simp]
theorem isAct_log (l : LogLevel) (m : String) : isAct (Event.log l m) = false := rfl

@[simp]
theorem isAct_print (m : String) : isAct (Event.print m) = false := rfl

@[simp]
theorem isAct_act (a : BAction) : isAct (Event.act a) = true := rfl

@[simp]
theorem isFillOf_fill (tg t : Target) (v : String) :
    isFillOf tg (Event.act (.fill t v)) = (t == tg) := rfl

@[simp]
theorem isFillOf_log (tg : Target) (l : LogLevel) (m : String) :
    isFillOf tg (Event.log l m) = false := rfl

@[simp]
theorem isFillOf_print (tg : Target) (m : String) :
    isFillOf tg (Event.print m) = false := rfl

@[simp]
theorem isFillOf_query (tg : Target) (q : QueryId) :
    isFillOf tg (Event.act (.queryElements q)) = false := rfl

@[simp]
theorem isFillOf_click (tg t : Target) :
    isFillOf tg (Event.act (.click t)) = false := rfl

@[simp]
theorem isClickOf_click (tg t : Target) :
    isClickOf tg (Event.act (.click t)) = (t == tg) := rfl

@[simp]
theorem isClickOf_fill (tg t : Target) (v : String) :
    isClickOf tg (Event.act (.fill t v)) = false := rfl

@[simp]
theorem isClickOf_log (tg : Target) (l : LogLevel) (m : String) :
    isClickOf tg (Event.log l m) = false := rfl

@[simp]
theorem isClickOf_print (tg : Target) (m : String) :
    isClickOf tg (Event.print m) = false := rfl

@[simp]
theorem isClickOf_query (tg : Target) (q : QueryId) :
    isClickOf tg (Event.act (.queryElements q)) = false := rfl

/-! ## Concrete fixtures used by witnesses and counterexamples -/

/-- A submit environment in which every operation succeeds. -/
def okSubmit : SubmitEnv := ⟨false, false, false, false, false, false, false⟩

/-- A popup environment: the query succeeds and finds nothing. -/
def okPopup : PopupEnv := ⟨false, false, false, false, false⟩

/-- A hub environment in which the structured handle is found and clicked. -/
def okHub : HubEnv := ⟨false, true, true, false, "Log in to the Exhibitor Hub", false⟩

/-- A browser environment in which every operation succeeds. -/
def okEnv : BrowserEnv :=
  ⟨false, false, false, false, false, okSubmit, false, okPopup, okHub, false, false⟩

/-- A credential file with all three keys populated. -/
def fileA : EnvFile := mkFile "https://a.test" "u1" "p1"

/-! ## C4 — missing credential file -/

/-- C4: if the credential file does not exist, `read_default_credentials`
creates a file containing the three fixed keys with empty values and
returns three empty strings rather than failing. -/
theorem C4_missing_file_creates_template :
    (read_default_credentials none).fsAfter = some templateFile
    ∧ (read_default_credentials none).url = some ""
    ∧ (read_default_credentials none).username = some ""
    ∧ (read_default_credentials none).password = some ""
    ∧ getenv templateFile "TARGET_URL" = some ""
    ∧ getenv templateFile "TARGET_USERNAME" = some ""
    ∧ getenv templateFile "TARGET_PASSWORD" = some "" := by
  refine ⟨rfl, rfl, rfl, rfl, ?_, ?_, ?_⟩ <;> decide

/-! ## C1 — submit step: fallback on failure, three actions once each -/

theorem primarySeq_counts (u p : String) (e : SubmitEnv) :
    countEv (primarySeq u p e).1 (isFillOf .usernameSelector) = 0
    ∧ countEv (primarySeq u p e).1 (isFillOf .passwordSelector) = 0
    ∧ countEv (primarySeq u p e).1 (isClickOf .submitSelector) = 0 := by
  rcases e with ⟨q, a, b, c, x, y, z⟩
  cases q <;> cases a <;> cases b <;> cases c <;> simp [primarySeq]

theorem primarySeq_snd_fail (u p : String) (e : SubmitEnv) (h : primaryFails e = true) :
    (primarySeq u p e).2 = some opExc := by
  rcases e with ⟨q, a, b, c, x, y, z⟩
  simp only [primaryFails] at h
  cases q <;> cases a <;> cases b <;> cases c <;> simp_all [primarySeq]

/-- C1: whenever the semantic-query path of the submit step fails at any of
its four operations, the literal-selector fallback is entered; the primary
path, when it succeeds, fills username, fills password and clicks submit
exactly once each (and performs no fallback action); the fallback path,
when it runs and succeeds, performs its three literal-selector actions
exactly once each. -/
theorem C1_submit_fallback_exactly_once (u p : String) (e : SubmitEnv) :
    (primaryFails e = true →
      Event.log .info "Attempting fallback with direct selectors" ∈ (submitStep u p e).1)
    ∧ (primaryFails e = false →
      countEv (submitStep u p e).1 (isFillOf .usernameField) = 1
      ∧ countEv (submitStep u p e).1 (isFillOf .passwordField) = 1
      ∧ countEv (submitStep u p e).1 (isClickOf .loginButton) = 1
      ∧ countEv (submitStep u p e).1 (isFillOf .usernameSelector) = 0
      ∧ countEv (submitStep u p e).1 (isFillOf .passwordSelector) = 0
      ∧ countEv (submitStep u p e).1 (isClickOf .submitSelector) = 0)
    ∧ (primaryFails e = true → fallbackFails e = false →
      countEv (submitStep u p e).1 (isFillOf .usernameSelector) = 1
      ∧ countEv (submitStep u p e).1 (isFillOf .passwordSelector) = 1
      ∧ countEv (submitStep u p e).1 (isClickOf .submitSelector) = 1) := by
  refine ⟨?_, ?_, ?_⟩
  · intro h
    have hex := primarySeq_snd_fail u p e h
    rcases hp : primarySeq u p e with ⟨t, r⟩
    rw [hp] at hex
    simp only at hex
    subst hex
    simp [submitStep, hp]
  · intro h
    simp only [primaryFails, Bool.or_eq_false_iff] at h
    obtain ⟨⟨⟨hq, ha⟩, hb⟩, hc⟩ := h
    simp [submitStep, primarySeq, hq, ha, hb, hc]
  · intro h hf
    simp only [fallbackFails, Bool.or_eq_false_iff] at hf
    obtain ⟨⟨hx, hy⟩, hz⟩ := hf
    have hex := primarySeq_snd_fail u p e h
    have hcnt := primarySeq_counts u p e
    rcases hp : primarySeq u p e with ⟨t, r⟩
    rw [hp] at hex hcnt
    simp only at hex hcnt
    subst hex
    simp [submitStep, hp, fallbackSeq, hx, hy, hz, hcnt.1, hcnt.2.1, hcnt.2.2]

/-- A submit environment whose semantic query raises. -/
def queryFailSubmit : SubmitEnv := ⟨true, false, false, false, false, false, false⟩

/-- Witness for C1 at a concrete failing query: the fallback is entered and
performs each of its three actions exactly once. -/
theorem C1_witness :
    Event.log .info "Attempting fallback with direct selectors"
      ∈ (submitStep "u1" "p1" queryFailSubmit).1
    ∧ countEv (submitStep "u1" "p1" queryFailSubmit).1 (isFillOf .usernameSelector) = 1
    ∧ countEv (submitStep "u1" "p1" queryFailSubmit).1 (isFillOf .passwordSelector) = 1
    ∧ countEv (submitStep "u1" "p1" queryFailSubmit).1 (isClickOf .submitSelector) = 1 :=
  ⟨(C1_submit_fallback_exactly_once "u1" "p1" queryFailSubmit).1 rfl,
   (C1_submit_fallback_exactly_once "u1" "p1" queryFailSubmit).2.2 rfl rfl⟩

/-! ## C9 — hub step: text fallback reads the same response object -/

/-- C9: in the hub step, when the query returns an absent (falsy) response,
the by-text fallback itself raises (reading `submit_btn_text` of `None`),
so the step ends with an error log and performs no lookup and no click; and
a `get_by_text` lookup happens only when the response is present but its
structured button handle is absent. -/
theorem C9_hub_text_fallback (he : HubEnv) :
    (he.queryRaises = false → he.responseTruthy = false →
       hubErr noneAttrMsg ∈ hubStep he
       ∧ countEv (hubStep he) isGetByTextEv = 0
       ∧ countEv (hubStep he) isClickEv = 0)
    ∧ (countEv (hubStep he) isGetByTextEv ≠ 0 →
       he.queryRaises = false ∧ he.responseTruthy = true ∧ he.submitBtnTruthy = false) := by
  rcases he with ⟨q, r, s, c, tx, tc⟩
  cases q <;> cases r <;> cases s <;> cases c <;> cases tc <;>
    simp [hubStep, hubErr, noneAttrMsg, countEv, isGetByTextEv, isClickEv]

/-- A hub environment whose query returns `None`. -/
def absentHub : HubEnv := ⟨false, false, false, false, "T", false⟩

/-- Witness for C9 at a concrete absent hub response: the step logs the
attribute error and performs no lookup and no click. -/
theorem C9_witness :
    hubErr noneAttrMsg ∈ hubStep absentHub
    ∧ countEv (hubStep absentHub) isGetByTextEv = 0
    ∧ countEv (hubStep absentHub) isClickEv = 0 :=
  (C9_hub_text_fallback absentHub).1 rfl rfl

/-! ## C2 — top-level handler, idle loop, and the unbound `page` hole -/

/-- A browser environment whose Playwright start / browser launch raises
(before the local `page` is assigned). -/
def startFailEnv : BrowserEnv :=
  ⟨true, false, false, false, false, okSubmit, false, okPopup, okHub, false, false⟩

/-- A browser environment in which `wait_for_selector("#username")` hits its
60-second timeout. -/
def timeoutEnv : BrowserEnv :=
  ⟨false, false, false, true, false, okSubmit, false, okPopup, okHub, false, false⟩

/-- C2 evaluation: the 60-second form timeout is caught by the top-level
handler, logged, and followed by the idle loop (the run idles, the process
stays alive); but an exception raised before `page` is assigned (browser
launch failure) is caught and logged, after which the handler idle loop
itself raises `UnboundLocalError` on `page`, the exception escapes
`login_to_portal`, and `main` catches it and returns — the process exits,
contradicting the claim. -/
theorem C2_prelaunch_exception_exits_process :
    (login_to_portal "https://a.test" "u1" "p1" timeoutEnv).2 = .idle
    ∧ Event.log .error ("Error during login process: " ++ timeoutExc.msg)
        ∈ (login_to_portal "https://a.test" "u1" "p1" timeoutEnv).1
    ∧ Event.log .info "Browser will remain open despite error. Press Ctrl+C to exit."
        ∈ (login_to_portal "https://a.test" "u1" "p1" startFailEnv).1
    ∧ (login_to_portal "https://a.test" "u1" "p1" startFailEnv).2 = .raises unboundExc
    ∧ (main (some fileA) ["y"] startFailEnv).2 = .exits := by
  refine ⟨?_, ?_, ?_, ?_, ?_⟩ <;> decide

/-! ## C3 — abort before the browser when a credential is empty -/

theorem guc_trace_no_act (fs : Option EnvFile) (inputs : List String) :
    countEv (get_user_credentials fs inputs).trace isAct = 0 := by
  cases fs <;>
    · simp only [get_user_credentials, read_default_credentials]
      split_ifs <;> simp

theorem start_mem_loginPre (u : String) (env : BrowserEnv) :
    Event.act .playwrightStart ∈ (loginPre u env).1 := by
  unfold loginPre
  split_ifs <;> simp

theorem start_mem_loginBody (u n p : String) (env : BrowserEnv) :
    Event.act .playwrightStart ∈ (loginBody u n p env).1 := by
  have h := start_mem_loginPre u env
  unfold loginBody
  rcases hp : loginPre u env with ⟨t, rp⟩
  rw [hp] at h
  dsimp only at h
  rcases hs : submitStep u p env.submit with ⟨ts, r⟩
  cases rp <;> cases r <;> simp [h]

theorem start_mem_login (u n p : String) (env : BrowserEnv) :
    Event.act .playwrightStart ∈ (login_to_portal u n p env).1 := by
  have h := start_mem_loginBody u n p env
  unfold login_to_portal
  rcases hb : loginBody u n p env with ⟨t, r⟩
  rw [hb] at h
  dsimp only at h ⊢
  cases r <;> split_ifs <;> simp [h]

/-- C3: for every resolved credential triple, if any of the three values is
empty the run aborts with no browser action at all; when all three are
non-empty the browser sequence starts (the Playwright start action is in
the trace). -/
theorem C3_abort_before_browser (fs : Option EnvFile) (inputs : List String) (env : BrowserEnv) :
    (((get_user_credentials fs inputs).url.isEmpty
      || (get_user_credentials fs inputs).username.isEmpty
      || (get_user_credentials fs inputs).password.isEmpty) = true →
      (main fs inputs env).2 = .exits
      ∧ countEv (main fs inputs env).1 isAct = 0)
    ∧ (((get_user_credentials fs inputs).url.isEmpty
      || (get_user_credentials fs inputs).username.isEmpty
      || (get_user_credentials fs inputs).password.isEmpty) = false →
      Event.act .playwrightStart ∈ (main fs inputs env).1) := by
  constructor
  · intro h
    refine ⟨?_, ?_⟩ <;>
      simp [main, h, guc_trace_no_act fs inputs]
  · intro h
    rw [Bool.or_eq_false_iff, Bool.or_eq_false_iff] at h
    obtain ⟨⟨hu, hn⟩, hp⟩ := h
    rcases hl : login_to_portal (get_user_credentials fs inputs).url
        (get_user_credentials fs inputs).username
        (get_user_credentials fs inputs).password env with ⟨tl, r⟩
    have hm := start_mem_login (get_user_credentials fs inputs).url
        (get_user_credentials fs inputs).username
        (get_user_credentials fs inputs).password env
    rw [hl] at hm
    dsimp only at hm
    cases r <;> simp [main, hu, hn, hp, hl, hm]

/-- Witness for C3: with no credential file and no input, the username
resolves empty, so the run aborts with no browser action; and with a full
file and a confirming input, the browser sequence starts. -/
theorem C3_witness :
    (main none [] okEnv).2 = .exits
    ∧ countEv (main none [] okEnv).1 isAct = 0
    ∧ Event.act .playwrightStart ∈ (main (some fileA) ["y"] okEnv).1 :=
  ⟨((C3_abort_before_browser none [] okEnv).1 (by decide)).1,
   ((C3_abort_before_browser none [] okEnv).1 (by decide)).2,
   (C3_abort_before_browser (some fileA) ["y"] okEnv).2 (by decide)⟩

/-! ## C5 — only the missing field is prompted -/

/-- C5: when the credential file has exactly one of the three fields empty
or missing, `get_user_credentials` prompts once, for that field alone, and
returns the other two fields unchanged from the file. -/
theorem C5_prompt_only_missing_field (f : EnvFile) (inputs : List String) :
    (truthy (getenv f "TARGET_URL") = false → truthy (getenv f "TARGET_USERNAME") = true →
     truthy (getenv f "TARGET_PASSWORD") = true →
       promptsOf (get_user_credentials (some f) inputs).trace = [Event.print urlPrompt]
       ∧ (get_user_credentials (some f) inputs).rest = inputs.tail
       ∧ (get_user_credentials (some f) inputs).username = (getenv f "TARGET_USERNAME").getD ""
       ∧ (get_user_credentials (some f) inputs).password = (getenv f "TARGET_PASSWORD").getD "")
    ∧ (truthy (getenv f "TARGET_URL") = true → truthy (getenv f "TARGET_USERNAME") = false →
     truthy (getenv f "TARGET_PASSWORD") = true →
       promptsOf (get_user_credentials (some f) inputs).trace = [Event.print loginIdPrompt]
       ∧ (get_user_credentials (some f) inputs).rest = inputs.tail
       ∧ (get_user_credentials (some f) inputs).url = (getenv f "TARGET_URL").getD ""
       ∧ (get_user_credentials (some f) inputs).password = (getenv f "TARGET_PASSWORD").getD "")
    ∧ (truthy (getenv f "TARGET_URL") = true → truthy (getenv f "TARGET_USERNAME") = true →
     truthy (getenv f "TARGET_PASSWORD") = false →
       promptsOf (get_user_credentials (some f) inputs).trace = [Event.print passwordPrompt]
       ∧ (get_user_credentials (some f) inputs).rest = inputs.tail
       ∧ (get_user_credentials (some f) inputs).url = (getenv f "TARGET_URL").getD ""
       ∧ (get_user_credentials (some f) inputs).username = (getenv f "TARGET_USERNAME").getD "") := by
  refine ⟨fun h1 h2 h3 => ?_, fun h1 h2 h3 => ?_, fun h1 h2 h3 => ?_⟩ <;>
    · simp only [truthy, Bool.not_eq_true', Bool.not_eq_false'] at h1 h2 h3
      simp only [get_user_credentials, read_default_credentials]
      simp [truthy, h1, h2, h3, promptsOf, isPromptPrint, urlPrompt, loginIdPrompt,
            passwordPrompt, reusePrompt, defaultUrl]

/-! ## C6 — popup and hub failures are contained -/

@[simp]
theorem isErrLog_log_error (m : String) : isErrLog (Event.log .error m) = true := rfl

@[simp]
theorem isErrLog_log_info (m : String) : isErrLog (Event.log .info m) = false := rfl

@[simp]
theorem isErrLog_log_warning (m : String) : isErrLog (Event.log .warning m) = false := rfl

@[simp]
theorem isErrLog_print (m : String) : isErrLog (Event.print m) = false := rfl

@[simp]
theorem isErrLog_act (a : BAction) : isErrLog (Event.act a) = false := rfl

theorem primarySeq_snd (u p : String) (e : SubmitEnv) :
    (primarySeq u p e).2 = (if primaryFails e then some opExc else none) := by
  rcases e with ⟨q, a, b, c, x, y, z⟩
  cases q <;> cases a <;> cases b <;> cases c <;> simp [primarySeq, primaryFails]

theorem fallbackSeq_snd (u p : String) (e : SubmitEnv) :
    (fallbackSeq u p e).2 = (if fallbackFails e then some opExc else none) := by
  rcases e with ⟨q, a, b, c, x, y, z⟩
  cases x <;> cases y <;> cases z <;> simp [fallbackSeq, fallbackFails]

theorem submitStep_snd (u p : String) (e : SubmitEnv) :
    (submitStep u p e).2
      = (if primaryFails e && fallbackFails e then some opExc else none) := by
  have h1 := primarySeq_snd u p e
  have h2 := fallbackSeq_snd u p e
  rcases hp : primarySeq u p e with ⟨t, r⟩
  rcases hf : fallbackSeq u p e with ⟨t2, r2⟩
  rw [hp] at h1
  rw [hf] at h2
  dsimp only at h1 h2
  subst h1
  subst h2
  by_cases hq : primaryFails e <;> by_cases hg : fallbackFails e <;>
    simp [submitStep, hp, hf, hq, hg]

/-- Whether the hub step hits one of its failure modes (query raised, the
response was falsy so the text fallback raised, the structured click
raised, or the by-text click raised). -/
def hubFailed (he : HubEnv) : Bool :=
  he.queryRaises || !he.responseTruthy
  || (he.responseTruthy && he.submitBtnTruthy && he.clickRaises)
  || (he.responseTruthy && !he.submitBtnTruthy && he.textClickRaises)

theorem hub_err_count (he : HubEnv) :
    countEv (hubStep he) isErrLog = (if hubFailed he then 1 else 0) := by
  rcases he with ⟨q, r, s, c, tx, tc⟩
  cases q <;> cases r <;> cases s <;> cases c <;> cases tc <;>
    simp [hubStep, hubFailed, hubErr]

theorem popup_warn_mem (pe : PopupEnv) (h : pe.queryRaises = true) :
    popupWarn opExc.msg ∈ popupStep pe := by
  simp [popupStep, h]

theorem hub_start_mem (he : HubEnv) :
    Event.log .info "Looking for Exhibitor Hub login button" ∈ hubStep he := by
  unfold hubStep
  split_ifs <;> simp

theorem mem_loginPost_of_popup (env : BrowserEnv) (h7 : env.load2Fails = false)
    (ev : Event) (h : ev ∈ popupStep env.popup) : ev ∈ (loginPost env).1 := by
  unfold loginPost
  simp only [h7, Bool.false_eq_true, if_false]
  split_ifs <;> simp [h]

theorem mem_loginPost_of_hub (env : BrowserEnv) (h7 : env.load2Fails = false)
    (ev : Event) (h : ev ∈ hubStep env.hub) : ev ∈ (loginPost env).1 := by
  unfold loginPost
  simp only [h7, Bool.false_eq_true, if_false]
  split_ifs <;> simp [h]

theorem goto_mem_loginPost (env : BrowserEnv) (h7 : env.load2Fails = false) :
    Event.act (.goto buyersUrl) ∈ (loginPost env).1 := by
  unfold loginPost
  simp only [h7, Bool.false_eq_true, if_false]
  split_ifs <;> simp

set_option maxHeartbeats 1600000 in
/-- C6: in a run that reaches the popup step, a raising popup query is
logged as a warning and does not prevent the hub step from running; and any
failure of the hub step yields exactly one error-level log line and does
not prevent the final navigation to the search-buyers page. -/
theorem C6_popup_hub_isolated (u n p : String) (env : BrowserEnv)
    (h1 : env.startFails = false) (h2 : env.gotoFails = false)
    (h3 : env.load1Fails = false) (h4 : env.userSelTimeout = false)
    (h5 : env.passSelTimeout = false)
    (h6 : (primaryFails env.submit && fallbackFails env.submit) = false)
    (h7 : env.load2Fails = false) :
    (env.popup.queryRaises = true →
       popupWarn opExc.msg ∈ (login_to_portal u n p env).1
       ∧ Event.log .info "Looking for Exhibitor Hub login button"
           ∈ (login_to_portal u n p env).1)
    ∧ (hubFailed env.hub = true →
       countEv (hubStep env.hub) isErrLog = 1
       ∧ Event.act (.goto buyersUrl) ∈ (login_to_portal u n p env).1) := by
  have hsnd : (submitStep u p env.submit).2 = none := by
    rw [submitStep_snd, h6]
    rfl
  rcases hs : submitStep u p env.submit with ⟨ts, r⟩
  rw [hs] at hsnd
  dsimp only at hsnd
  subst hsnd
  have hpre0 : (loginPre u env).2 = none := by
    unfold loginPre
    simp [h1, h2, h3, h4, h5]
  rcases hpreE : loginPre u env with ⟨tp, rp⟩
  rw [hpreE] at hpre0
  dsimp only at hpre0
  subst hpre0
  have lift : ∀ ev : Event, ev ∈ (loginPost env).1 → ev ∈ (login_to_portal u n p env).1 := by
    intro ev hev
    rcases hpostE : loginPost env with ⟨tpost, rpost⟩
    rw [hpostE] at hev
    dsimp only at hev
    unfold login_to_portal loginBody
    simp only [hpreE, hs, hpostE]
    cases rpost <;> split_ifs <;> simp [hev]
  refine ⟨fun hq => ?_, fun hf => ?_⟩
  · exact ⟨lift _ (mem_loginPost_of_popup env h7 _ (popup_warn_mem env.popup hq)),
           lift _ (mem_loginPost_of_hub env h7 _ (hub_start_mem env.hub))⟩
  · exact ⟨by rw [hub_err_count, hf]; rfl, lift _ (goto_mem_loginPost env h7)⟩

/-- A popup environment whose query raises. -/
def failPopup : PopupEnv := ⟨true, false, false, false, false⟩

/-- A hub environment whose query raises. -/
def failHub : HubEnv := ⟨true, true, true, false, "T", false⟩

/-- A browser environment in which everything succeeds except the popup
query and the hub query. -/
def popupHubFailEnv : BrowserEnv :=
  ⟨false, false, false, false, false, okSubmit, false, failPopup, failHub, false, false⟩

/-- Witness for C6 at a concrete run whose popup query and hub query both
raise: the popup warning is logged, the hub step runs, exactly one hub
error is logged, and the final navigation still happens. -/
theorem C6_witness :
    (popupWarn opExc.msg ∈ (login_to_portal "https://a.test" "u1" "p1" popupHubFailEnv).1
     ∧ Event.log .info "Looking for Exhibitor Hub login button"
         ∈ (login_to_portal "https://a.test" "u1" "p1" popupHubFailEnv).1)
    ∧ (countEv (hubStep popupHubFailEnv.hub) isErrLog = 1
     ∧ Event.act (.goto buyersUrl)
         ∈ (login_to_portal "https://a.test" "u1" "p1" popupHubFailEnv).1) :=
  ⟨(C6_popup_hub_isolated "https://a.test" "u1" "p1" popupHubFailEnv
      rfl rfl rfl rfl rfl rfl rfl).1 rfl,
   (C6_popup_hub_isolated "https://a.test" "u1" "p1" popupHubFailEnv
      rfl rfl rfl rfl rfl rfl rfl).2 rfl⟩

/-! ## C7 — URL prompt: default substitution and stripping -/

/-- C7 counterexample: at the interactive URL prompt the entered string
" x " strips to the non-empty "x", so per the claim the returned URL should
be the entered string " x "; the code returns the stripped "x" instead. -/
theorem C7_counterexample :
    (pyStrip " x ").isEmpty = false
    ∧ (get_user_credentials none [" x ", "u1", "p1"]).url = "x"
    ∧ (get_user_credentials none [" x ", "u1", "p1"]).url ≠ " x " := by
  refine ⟨?_, ?_, ?_⟩ <;> decide

/-- C7 amended: at both URL prompt sites (missing-field path and
decline-reuse path), an input that strips to empty yields the fixed default
URL, and any other input yields the entered string with surrounding
whitespace stripped. -/
theorem C7_amended_url_prompt (s n2 p2 d : String) (rest : List String) (f : EnvFile) :
    ((get_user_credentials none (s :: n2 :: p2 :: rest)).url
       = if (pyStrip s).isEmpty then defaultUrl else pyStrip s)
    ∧ (truthy (getenv f "TARGET_URL") = true → truthy (getenv f "TARGET_USERNAME") = true →
       truthy (getenv f "TARGET_PASSWORD") = true → declines d = true →
       (get_user_credentials (some f) (d :: s :: n2 :: p2 :: rest)).url
         = if (pyStrip s).isEmpty then defaultUrl else pyStrip s) := by
  constructor
  · simp [get_user_credentials, read_default_credentials]
  · intro h1 h2 h3 hd
    simp only [truthy, Bool.not_eq_true', Bool.not_eq_false'] at h1 h2 h3
    simp only [get_user_credentials, read_default_credentials]
    simp [truthy, h1, h2, h3, hd]

/-- Witness for C7 at a concrete declined reuse with an empty URL input:
the default URL is substituted. -/
theorem C7_witness :
    (get_user_credentials (some fileA) ["n", "", "u2", "p2"]).url
      = if (pyStrip "").isEmpty then defaultUrl else pyStrip "" :=
  (C7_amended_url_prompt "" "u2" "p2" "n" [] fileA).2 rfl rfl rfl rfl

/-! ## C8 — reuse confirmation -/

/-- C8 counterexample: the input " y " is neither empty nor the letter y in
some letter case, so per the claim it should count as a decline and cause
all three values to be re-prompted; the code strips it first, so it
confirms: the stored triple is returned and no further input is consumed. -/
theorem C8_counterexample :
    (" y " : String) ≠ ""
    ∧ pyLower " y " ≠ "y"
    ∧ (get_user_credentials (some fileA) [" y ", "https://b.test", "u9", "p9"]).url
        = "https://a.test"
    ∧ (get_user_credentials (some fileA) [" y ", "https://b.test", "u9", "p9"]).username = "u1"
    ∧ (get_user_credentials (some fileA) [" y ", "https://b.test", "u9", "p9"]).password = "p1"
    ∧ (get_user_credentials (some fileA) [" y ", "https://b.test", "u9", "p9"]).rest
        = ["https://b.test", "u9", "p9"] := by
  refine ⟨?_, ?_, ?_, ?_, ?_, ?_⟩ <;> decide

/-- C8 amended: with all three fields loaded, a confirmation input that,
after stripping surrounding whitespace and lowercasing, is empty or "y"
returns the stored triple unchanged and consumes no further input; any
other input declines, and all three values are then re-prompted from the
remaining inputs alone — the stored values are discarded. -/
theorem C8_amended_reuse_confirmation (f : EnvFile) (d : String) (rest : List String)
    (h1 : truthy (getenv f "TARGET_URL") = true)
    (h2 : truthy (getenv f "TARGET_USERNAME") = true)
    (h3 : truthy (getenv f "TARGET_PASSWORD") = true) :
    (declines d = false →
       (get_user_credentials (some f) (d :: rest)).url = (getenv f "TARGET_URL").getD ""
       ∧ (get_user_credentials (some f) (d :: rest)).username
           = (getenv f "TARGET_USERNAME").getD ""
       ∧ (get_user_credentials (some f) (d :: rest)).password
           = (getenv f "TARGET_PASSWORD").getD ""
       ∧ (get_user_credentials (some f) (d :: rest)).rest = rest)
    ∧ (declines d = true →
       (get_user_credentials (some f) (d :: rest)).url
         = (if (pyStrip (rest.headD "")).isEmpty then defaultUrl
            else pyStrip (rest.headD ""))
       ∧ (get_user_credentials (some f) (d :: rest)).username = pyStrip (rest.tail.headD "")
       ∧ (get_user_credentials (some f) (d :: rest)).password
           = pyStrip (rest.tail.tail.headD "")
       ∧ (get_user_credentials (some f) (d :: rest)).rest = rest.tail.tail.tail) := by
  constructor <;> intro hd <;>
    · simp only [truthy, Bool.not_eq_true', Bool.not_eq_false'] at h1 h2 h3
      simp only [get_user_credentials, read_default_credentials]
      simp [truthy, h1, h2, h3, hd]

/-- Witness for C8 at a concrete confirming input "Y": the stored triple
comes back unchanged with no further input consumed. -/
theorem C8_witness :
    (get_user_credentials (some fileA) ["Y"]).url = (getenv fileA "TARGET_URL").getD ""
    ∧ (get_user_credentials (some fileA) ["Y"]).username
        = (getenv fileA "TARGET_USERNAME").getD ""
    ∧ (get_user_credentials (some fileA) ["Y"]).password
        = (getenv fileA "TARGET_PASSWORD").getD ""
    ∧ (get_user_credentials (some fileA) ["Y"]).rest = [] :=
  (C8_amended_reuse_confirmation fileA "Y" [] rfl rfl rfl).1 rfl

/-! ## C5 witness -/

/-- A credential file whose URL is empty but whose other fields are set. -/
def fileNoUrl : EnvFile := mkFile "" "bob" "pw"

/-- Witness for C5 at a concrete file missing only the URL: one prompt (the
URL prompt), one input consumed, username and password unchanged. -/
theorem C5_witness :
    promptsOf (get_user_credentials (some fileNoUrl) ["", "zzz"]).trace
      = [Event.print urlPrompt]
    ∧ (get_user_credentials (some fileNoUrl) ["", "zzz"]).rest = (["", "zzz"] : List String).tail
    ∧ (get_user_credentials (some fileNoUrl) ["", "zzz"]).username
        = (getenv fileNoUrl "TARGET_USERNAME").getD ""
    ∧ (get_user_credentials (some fileNoUrl) ["", "zzz"]).password
        = (getenv fileNoUrl "TARGET_PASSWORD").getD "" :=
  (C5_prompt_only_missing_field fileNoUrl ["", "zzz"]).1 rfl rfl rfl

/-! ## C10 — the password never reaches the log or the terminal -/

/-- The event is visible output: a log-file line or a terminal print (as
opposed to a browser action such as filling a field). -/
def visEv : Event → Bool
  | .act _ => false
  | _ => true

/-- The visible output (log lines and prints) of a trace. -/
def visFilter (t : List Event) : List Event :=
  t.filter visEv

@[simp]
theorem visEv_log (l : LogLevel) (m : String) : visEv (Event.log l m) = true := rfl

@[simp]
theorem visEv_print (m : String) : visEv (Event.print m) = true := rfl

@[simp]
theorem visEv_act (a : BAction) : visEv (Event.act a) = false := rfl

@[simp]
theorem visFilter_nil : visFilter [] = [] := rfl

@[simp]
theorem visFilter_cons (ev : Event) (t : List Event) :
    visFilter (ev :: t) = if visEv ev then ev :: visFilter t else visFilter t := by
  simp [visFilter, List.filter_cons]

@[simp]
theorem visFilter_append (t₁ t₂ : List Event) :
    visFilter (t₁ ++ t₂) = visFilter t₁ ++ visFilter t₂ := by
  simp [visFilter, List.filter_append]

theorem primarySeq_vis (u p₁ p₂ : String) (e : SubmitEnv) :
    visFilter (primarySeq u p₁ e).1 = visFilter (primarySeq u p₂ e).1 := by
  rcases e with ⟨q, a, b, c, x, y, z⟩
  cases q <;> cases a <;> cases b <;> cases c <;> simp [primarySeq]

theorem fallbackSeq_vis (u p₁ p₂ : String) (e : SubmitEnv) :
    visFilter (fallbackSeq u p₁ e).1 = visFilter (fallbackSeq u p₂ e).1 := by
  rcases e with ⟨q, a, b, c, x, y, z⟩
  cases x <;> cases y <;> cases z <;> simp [fallbackSeq]

theorem submitStep_vis (u p₁ p₂ : String) (e : SubmitEnv) :
    visFilter (submitStep u p₁ e).1 = visFilter (submitStep u p₂ e).1
    ∧ (submitStep u p₁ e).2 = (submitStep u p₂ e).2 := by
  have hv1 := primarySeq_vis u p₁ p₂ e
  have hv2 := fallbackSeq_vis u p₁ p₂ e
  have hs1 := primarySeq_snd u p₁ e
  have hs2 := primarySeq_snd u p₂ e
  have ht1 := fallbackSeq_snd u p₁ e
  have ht2 := fallbackSeq_snd u p₂ e
  rcases e1 : primarySeq u p₁ e with ⟨ta, ra⟩
  rcases e2 : primarySeq u p₂ e with ⟨tb, rb⟩
  rcases e3 : fallbackSeq u p₁ e with ⟨tc, rc⟩
  rcases e4 : fallbackSeq u p₂ e with ⟨td, rd⟩
  rw [e1] at hv1 hs1
  rw [e2] at hv1 hs2
  rw [e3] at hv2 ht1
  rw [e4] at hv2 ht2
  dsimp only at hv1 hv2 hs1 hs2 ht1 ht2
  subst hs1
  subst hs2
  subst ht1
  subst ht2
  by_cases hq : primaryFails e <;>
    simp [submitStep, e1, e2, e3, e4, hq, hv1, hv2]

theorem loginBody_password_indep (u n p₁ p₂ : String) (env : BrowserEnv) :
    visFilter (loginBody u n p₁ env).1 = visFilter (loginBody u n p₂ env).1
    ∧ (loginBody u n p₁ env).2 = (loginBody u n p₂ env).2 := by
  obtain ⟨hv, hr⟩ := submitStep_vis u p₁ p₂ env.submit
  rcases e1 : submitStep u p₁ env.submit with ⟨ta, ra⟩
  rcases e2 : submitStep u p₂ env.submit with ⟨tb, rb⟩
  rw [e1] at hv hr
  rw [e2] at hv hr
  dsimp only at hv hr
  subst hr
  unfold loginBody
  simp only [e1, e2]
  rcases hpreE : loginPre u env with ⟨tp, rp⟩
  cases rp <;> cases ra <;> simp [hv]

set_option maxHeartbeats 1600000 in
theorem login_password_indep (u n p₁ p₂ : String) (env : BrowserEnv) :
    visFilter (login_to_portal u n p₁ env).1 = visFilter (login_to_portal u n p₂ env).1
    ∧ (login_to_portal u n p₁ env).2 = (login_to_portal u n p₂ env).2 := by
  obtain ⟨hv, hr⟩ := loginBody_password_indep u n p₁ p₂ env
  rcases e1 : loginBody u n p₁ env with ⟨ta, ra⟩
  rcases e2 : loginBody u n p₂ env with ⟨tb, rb⟩
  rw [e1] at hv hr
  rw [e2] at hv hr
  dsimp only at hv hr
  subst hr
  unfold login_to_portal
  simp only [e1, e2]
  cases ra <;> split_ifs <;> simp [hv]

@[simp]
theorem getenv_mkFile_url (u n p : String) :
    getenv (mkFile u n p) "TARGET_URL" = some u := rfl

@[simp]
theorem getenv_mkFile_username (u n p : String) :
    getenv (mkFile u n p) "TARGET_USERNAME" = some n := rfl

@[simp]
theorem getenv_mkFile_password (u n p : String) :
    getenv (mkFile u n p) "TARGET_PASSWORD" = some p := rfl

set_option maxHeartbeats 1600000 in
theorem guc_password_indep (u n p₁ p₂ : String) (inputs : List String)
    (hp1 : p₁.isEmpty = false) (hp2 : p₂.isEmpty = false) :
    (get_user_credentials (some (mkFile u n p₁)) inputs).trace
      = (get_user_credentials (some (mkFile u n p₂)) inputs).trace
    ∧ (get_user_credentials (some (mkFile u n p₁)) inputs).url
      = (get_user_credentials (some (mkFile u n p₂)) inputs).url
    ∧ (get_user_credentials (some (mkFile u n p₁)) inputs).username
      = (get_user_credentials (some (mkFile u n p₂)) inputs).username
    ∧ (get_user_credentials (some (mkFile u n p₁)) inputs).rest
      = (get_user_credentials (some (mkFile u n p₂)) inputs).rest
    ∧ ((get_user_credentials (some (mkFile u n p₁)) inputs).password
        = (get_user_credentials (some (mkFile u n p₂)) inputs).password
      ∨ ((get_user_credentials (some (mkFile u n p₁)) inputs).password = p₁
         ∧ (get_user_credentials (some (mkFile u n p₂)) inputs).password = p₂)) := by
  by_cases hu : u.isEmpty <;> by_cases hn : n.isEmpty <;>
    by_cases hd : declines (inputs.headD "") <;>
      · simp only [List.headD_eq_head?] at hd
        simp only [get_user_credentials, read_default_credentials]
        simp [truthy, hu, hn, hd, hp1, hp2]

theorem guc_reuse_prints (u n p : String) (inputs : List String)
    (hu : u.isEmpty = false) (hn : n.isEmpty = false) (hp : p.isEmpty = false)
    (hd : declines (inputs.headD "") = false) :
    Event.print ("URL: " ++ u) ∈ (get_user_credentials (some (mkFile u n p)) inputs).trace
    ∧ Event.print ("Username: " ++ n)
        ∈ (get_user_credentials (some (mkFile u n p)) inputs).trace
    ∧ Event.print "Password: ********"
        ∈ (get_user_credentials (some (mkFile u n p)) inputs).trace := by
  rw [List.headD_eq_head?] at hd
  simp only [get_user_credentials, read_default_credentials]
  simp [truthy, hu, hn, hp, hd]

theorem mem_main_of_mem_guc (fs : Option EnvFile) (inputs : List String) (env : BrowserEnv)
    (ev : Event) (h : ev ∈ (get_user_credentials fs inputs).trace) :
    ev ∈ (main fs inputs env).1 := by
  unfold main
  rcases hl : login_to_portal (get_user_credentials fs inputs).url
      (get_user_credentials fs inputs).username
      (get_user_credentials fs inputs).password env with ⟨tl, r⟩
  simp only [hl]
  cases r <;> split_ifs <;> simp [h]

/-- C10 counterexample: in a run where the credentials are entered
interactively (no credential file), the resolved username "alice" never
occurs in any terminal print, refuting the claim that every run writes the
username in plaintext to the terminal. -/
theorem C10_counterexample :
    (get_user_credentials none ["https://x.test", "alice", "pw1"]).username = "alice"
    ∧ ((printedStrings (main none ["https://x.test", "alice", "pw1"] okEnv).1).any
        (fun s => occursIn "alice" s)) = false := by
  refine ⟨?_, ?_⟩ <;> decide

set_option maxHeartbeats 1600000 in
/-- C10 amended: the visible output (log lines and terminal prints) of a
whole run is unchanged when the stored password is replaced by any other
non-empty password — so the password value itself never reaches the log or
the terminal — and on the reuse path the URL and username are printed in
plaintext while the password is displayed only as the mask. -/
theorem C10_amended_password_hygiene (u n p₁ p₂ : String) (inputs : List String)
    (env : BrowserEnv) (hp1 : p₁.isEmpty = false) (hp2 : p₂.isEmpty = false) :
    (visFilter (main (some (mkFile u n p₁)) inputs env).1
      = visFilter (main (some (mkFile u n p₂)) inputs env).1
    ∧ (main (some (mkFile u n p₁)) inputs env).2
      = (main (some (mkFile u n p₂)) inputs env).2)
    ∧ (u.isEmpty = false → n.isEmpty = false → declines (inputs.headD "") = false →
        Event.print ("URL: " ++ u) ∈ (main (some (mkFile u n p₁)) inputs env).1
        ∧ Event.print ("Username: " ++ n) ∈ (main (some (mkFile u n p₁)) inputs env).1
        ∧ Event.print "Password: ********" ∈ (main (some (mkFile u n p₁)) inputs env).1) := by
  obtain ⟨ht, hu', hn', hr', hp'⟩ := guc_password_indep u n p₁ p₂ inputs hp1 hp2
  constructor
  · have hpe : (get_user_credentials (some (mkFile u n p₁)) inputs).password.isEmpty
        = (get_user_credentials (some (mkFile u n p₂)) inputs).password.isEmpty := by
      rcases hp' with h | ⟨h1, h2⟩
      · rw [h]
      · rw [h1, h2, hp1, hp2]
    obtain ⟨hlv, hlr⟩ := login_password_indep
      (get_user_credentials (some (mkFile u n p₁)) inputs).url
      (get_user_credentials (some (mkFile u n p₁)) inputs).username
      (get_user_credentials (some (mkFile u n p₁)) inputs).password
      (get_user_credentials (some (mkFile u n p₂)) inputs).password env
    rw [hu', hn'] at hlv hlr
    rcases e1 : login_to_portal (get_user_credentials (some (mkFile u n p₂)) inputs).url
        (get_user_credentials (some (mkFile u n p₂)) inputs).username
        (get_user_credentials (some (mkFile u n p₁)) inputs).password env with ⟨ta, ra⟩
    rcases e2 : login_to_portal (get_user_credentials (some (mkFile u n p₂)) inputs).url
        (get_user_credentials (some (mkFile u n p₂)) inputs).username
        (get_user_credentials (some (mkFile u n p₂)) inputs).password env with ⟨tb, rb⟩
    rw [e1, e2] at hlv hlr
    dsimp only at hlv hlr
    subst hlr
    unfold main
    simp only [hu', hn', hpe, ht, e1, e2]
    cases ra <;> split_ifs <;> simp [hlv, ht]
  · intro hu hn hd
    obtain ⟨m1, m2, m3⟩ := guc_reuse_prints u n p₁ inputs hu hn hp1 hd
    exact ⟨mem_main_of_mem_guc _ _ env _ m1,
           mem_main_of_mem_guc _ _ env _ m2,
           mem_main_of_mem_guc _ _ env _ m3⟩

/-- Witness for C10 at concrete runs: replacing the stored password "p1" by
"p2" leaves the visible output unchanged, and the reuse path prints the URL
and username in plaintext and the password only as the mask. -/
theorem C10_witness :
    visFilter (main (some (mkFile "https://a.test" "u1" "p1")) ["y"] okEnv).1
      = visFilter (main (some (mkFile "https://a.test" "u1" "p2")) ["y"] okEnv).1
    ∧ Event.print ("URL: " ++ "https://a.test")
        ∈ (main (some (mkFile "https://a.test" "u1" "p1")) ["y"] okEnv).1
    ∧ Event.print ("Username: " ++ "u1")
        ∈ (main (some (mkFile "https://a.test" "u1" "p1")) ["y"] okEnv).1
    ∧ Event.print "Password: ********"
        ∈ (main (some (mkFile "https://a.test" "u1" "p1")) ["y"] okEnv).1 :=
  ⟨((C10_amended_password_hygiene "https://a.test" "u1" "p1" "p2" ["y"] okEnv
      rfl rfl).1).1,
   ((C10_amended_password_hygiene "https://a.test" "u1" "p1" "p2" ["y"] okEnv
      rfl rfl).2 rfl rfl rfl).1,
   ((C10_amended_password_hygiene "https://a.test" "u1" "p1" "p2" ["y"] okEnv
      rfl rfl).2 rfl rfl rfl).2.1,
   ((C10_amended_password_hygiene "https://a.test" "u1" "p1" "p2" ["y"] okEnv
      rfl rfl).2 rfl rfl rfl).2.2⟩

end Scraper
